import Mathlib

/-
Verification of the fargo build-variant orchestrator (src/fargo.py) against its
natural-language specification.  The definitions below are a shallow embedding of
the decision layer of fargo.py: project-root location, profile loading and the
configparser semantics it relies on, profile materialization, build-variant output
directories, compiler-flag resolution, the timestamp staleness check, and the
exit-status behaviour of the run / test / bench consumer phases.
-/

namespace Fargo

/- ===== Configuration constants (src/fargo.py lines 30-47) ===== -/

/-- Fixed build output root, src/fargo.py line 30. -/
def BUILD_DIR : String := "build"

/-- Debug variant subdirectory, src/fargo.py line 31. -/
def DEBUG_SUBDIR : String := "debug"

/-- Release variant subdirectory, src/fargo.py line 32. -/
def RELEASE_SUBDIR : String := "release"

/-- AddressSanitizer variant subdirectory, src/fargo.py line 33. -/
def ASAN_SUBDIR : String := "debug_asan"

/-- ThreadSanitizer variant subdirectory, src/fargo.py line 34. -/
def TSAN_SUBDIR : String := "debug_tsan"

/-- Reserved default profile name, src/fargo.py line 39. -/
def DEFAULT_PROFILE : String := "default"

/- ===== ProjectLocator: find_project_root (src/fargo.py lines 143-158) ===== -/

/-- Result of attempting to read the project descriptor file (CMakeLists.txt) of one
directory: the file may be absent, present but unreadable (read_text raises), or
readable with some content.  In find_project_root an unreadable descriptor is
swallowed by the bare except and treated as a non-match. -/
inductive FileState where
  | absent
  | unreadable
  | readable (content : String)
deriving DecidableEq

/-- Does the first list occur at the head of the second? -/
def isPrefixList : List Char → List Char → Bool
  | [], _ => true
  | _ :: _, [] => false
  | a :: as, b :: bs => decide (a = b) && isPrefixList as bs

/-- Does the first list occur contiguously anywhere inside the second? -/
def containsSub : List Char → List Char → Bool
  | needle, [] => needle.isEmpty
  | needle, c :: rest => isPrefixList needle (c :: rest) || containsSub needle rest

/-- Boolean substring test embedding the Python membership test of the token in the
descriptor content. -/
def containsSubstr (needle hay : String) : Bool :=
  containsSub needle.toList hay.toList

/-- Directories are lists of path components with the DEEPEST component first, so
that the parent of c :: rest is rest and the filesystem root is []; a filesystem
assigns a FileState to the descriptor file of every directory. -/
abbrev DirFS : Type := List String → FileState

/-- Does the directory hold a readable descriptor whose content contains the
project-declaration token?  Embeds src/fargo.py lines 148-155: the file must exist,
read_text must succeed, and the content must contain the token, while a read failure
falls through (except: pass) and counts as no match. -/
def descriptor_matches (fs : DirFS) (dir : List String) : Bool :=
  match fs dir with
  | .readable c => containsSubstr "project(" c
  | _ => false

/-- Upward walk of find_project_root (src/fargo.py lines 143-158): starting from a
directory, test the descriptor at each level and return the first (nearest) match;
the loop condition current != current.parent stops the walk at the filesystem root
[] (whose parent is itself) without testing it, returning none (NotFound). -/
def find_project_root (fs : DirFS) : List String → Option (List String)
  | [] => none
  | c :: rest =>
    if descriptor_matches fs (c :: rest) then some (c :: rest)
    else find_project_root fs rest

/-- Replace every unreadable descriptor by an absent one; used to state that a read
failure is treated exactly like a missing descriptor. -/
def maskUnreadable (fs : DirFS) : DirFS :=
  fun p =>
    match fs p with
    | .unreadable => .absent
    | s => s

/-- Filesystem holding a matching descriptor only at the filesystem root itself. -/
def rootOnlyFS : DirFS :=
  fun p => if p.isEmpty then .readable "project(demo)" else .absent

/- ===== ProfileStore: configparser semantics and load_profile ===== -/

/-- Count of leading whitespace characters of a line (the column of the first
non-blank character, which configparser compares for continuation detection). -/
def leadingWS : List Char → Nat
  | [] => 0
  | c :: r => if c.isWhitespace then leadingWS r + 1 else 0

/-- Drop leading whitespace. -/
def trimLeftList (l : List Char) : List Char := l.dropWhile Char.isWhitespace

/-- Drop trailing whitespace. -/
def trimRightList (l : List Char) : List Char := (l.reverse.dropWhile Char.isWhitespace).reverse

/-- Drop whitespace on both ends (Python str.strip). -/
def trimList (l : List Char) : List Char := trimLeftList (trimRightList l)

/-- Does the line begin with the given character? -/
def startsWithChar (c : Char) : List Char → Bool
  | [] => false
  | a :: _ => decide (a = c)

/-- ASCII lower-casing of one character; the configparser key transform is
str.lower, and every profile key exercised is ASCII. -/
def lowerChar (c : Char) : Char :=
  if 'A' ≤ c ∧ c ≤ 'Z' then Char.ofNat (c.toNat + 32) else c

/-- Split at the first key/value delimiter (= or :), as the configparser option
pattern does; none when the line holds no delimiter. -/
def splitDelim : List Char → Option (List Char × List Char)
  | [] => none
  | c :: r =>
    if c == '=' || c == ':' then some ([], r)
    else
      match splitDelim r with
      | some (a, b) => some (c :: a, b)
      | none => none

/-- Recognize a section header line (the configparser section pattern applied with
match semantics): an opening bracket, at least one character, a closing bracket; the
header is everything between the opening bracket and the LAST closing bracket,
characters after that bracket being ignored by the pattern match. -/
def sectionHeader (v : List Char) : Option (List Char) :=
  match v with
  | [] => none
  | a :: rest =>
    if a = '[' then
      match rest.reverse.dropWhile (fun x => x != ']') with
      | ']' :: body => if body = [] then none else some body.reverse
      | _ => none
    else none

/-- Parser state mirroring the configparser read loop: the DEFAULT-section entries
collected so far (in insertion order), whether the current section is DEFAULT, the
last option name seen (for continuation lines), and the indentation column of the
line that introduced it. -/
structure CPSt where
  entries : List (String × String)
  inDefault : Bool
  curOpt : Option String
  indent : Nat
deriving DecidableEq

/-- Initial parser state: no section entered yet; load_profile always prepends a
DEFAULT section header before parsing (src/fargo.py line 206). -/
def initSt : CPSt := { entries := [], inDefault := false, curOpt := none, indent := 0 }

/-- Append a continuation line to the value of option k. -/
def appendCont (entries : List (String × String)) (k v : String) : List (String × String) :=
  entries.map fun e => if e.1 == k then (e.1, e.2 ++ "\n" ++ v) else e

/-- One line of configparser parsing, modelling the library behaviour load_profile
relies on at src/fargo.py lines 204-208: blank lines and full-line comments are
skipped; a line indented deeper than the current option continues that option value;
a section header switches the current section (only the DEFAULT section feeds the
returned mapping); otherwise the line must split at a = or : delimiter into a
non-empty key (trailing space removed, lower-cased) and a stripped value, a
duplicate key in the DEFAULT section being a strict-mode error; ANY OTHER LINE IS A
PARSE ERROR (configparser raises ParsingError, it does not skip the line).
Blank-line bookkeeping inside multiline values and duplicate tracking for
non-DEFAULT sections are not modelled; no claim touches them. -/
def processLine (st : CPSt) (l : String) : Except Unit CPSt :=
  let lc := l.toList
  let vc := trimList lc
  if vc.isEmpty then .ok st
  else if startsWithChar '#' vc || startsWithChar ';' vc then .ok st
  else
    let curIndent := leadingWS lc
    if st.curOpt.isSome && decide (st.indent < curIndent) then
      match st.curOpt with
      | some k =>
        .ok { st with
              entries := if st.inDefault then appendCont st.entries k (String.mk vc)
                         else st.entries }
      | none => .ok st
    else
      match sectionHeader vc with
      | some h =>
        .ok { entries := st.entries, inDefault := decide (String.mk h = "DEFAULT"),
              curOpt := none, indent := curIndent }
      | none =>
        match splitDelim vc with
        | some (k, val) =>
          let key := String.mk ((trimRightList k).map lowerChar)
          if key = "" then .error ()
          else if st.inDefault && (st.entries.lookup key).isSome then .error ()
          else
            .ok { entries := if st.inDefault
                             then st.entries ++ [(key, String.mk (trimList val))]
                             else st.entries,
                  inDefault := st.inDefault, curOpt := some key, indent := curIndent }
        | none => .error ()

/-- Run the line parser over a list of lines, stopping at the first parse error
(configparser collects parse errors and raises ParsingError from read_string; either
way the call raises rather than returning a mapping). -/
def cpRead (st : CPSt) : List String → Except Unit (List (String × String))
  | [] => .ok st.entries
  | l :: rest =>
    match processLine st l with
    | .error e => .error e
    | .ok st2 => cpRead st2 rest

/-- Parse profile file content (given as its list of lines) exactly as load_profile
does at src/fargo.py lines 204-208: prepend a DEFAULT section header, run the
parser, and return the DEFAULT-section mapping. -/
def configRead (ls : List String) : Except Unit (List (String × String)) :=
  cpRead initSt ("[DEFAULT]" :: ls)

/-- Embeds load_profile (src/fargo.py lines 191-212) after root resolution, over the
state of the requested profile file (none when absent on disk, some lines when
present).  Returns either a parse error (the exception configparser raises escapes
load_profile unhandled) or the parsed mapping together with the warning events
emitted; a warning event is recorded by the name of the profile that was not found
(the concrete message text names that profile and says it was not found). -/
def load_profile (file : Option (List String)) (profile_name : String) :
    Except Unit ((List (String × String)) × List String) :=
  match file with
  | some ls =>
    match configRead ls with
    | .ok es => .ok (es, [])
    | .error e => .error e
  | none =>
    .ok ([], if profile_name = DEFAULT_PROFILE then [] else [profile_name])

/-- Exit status of a fargo action whose profile loading raises: the generic
exception handler of main (src/fargo.py lines 1413-1423) catches the ParsingError,
prints a single error line and exits 1; a successful load does not exit. -/
def profileLoadExit (file : Option (List String)) (profile_name : String) : Nat :=
  match load_profile file profile_name with
  | .ok _ => 0
  | .error _ => 1

/-- Sufficient syntactic condition for a line that configparser rejects: non-blank,
not indented, not a comment, not opening a section bracket, and holding no key/value
delimiter; such a line matches neither the section pattern nor the option pattern,
so parsing errors out regardless of the surrounding lines. -/
def lineMalformed (l : String) : Bool :=
  let lc := l.toList
  let vc := trimList lc
  !vc.isEmpty && !startsWithChar '#' vc && !startsWithChar ';' vc &&
    !startsWithChar '[' vc && !(vc.any fun c => c == '=' || c == ':') &&
    decide (leadingWS lc = 0)

/- ===== ProfileStore: create_default_profile (src/fargo.py lines 215-251) ===== -/

/-- The compiled-in default profile content of create_default_profile
(src/fargo.py lines 219-249), as its list of lines; the original triple-quoted
string ends with a newline, hence the final empty line. -/
def defaultConfigLines : List String :=
  ["# Default fargo profile configuration",
   "# Override these values in custom profiles",
   "",
   "# Build configuration",
   "CMAKE_GENERATOR=Ninja",
   "CMAKE_CXX_STANDARD=20",
   "CMAKE_BUILD_TYPE_DEBUG=Debug",
   "CMAKE_BUILD_TYPE_RELEASE=Release",
   "",
   "# Compiler flags",
   "CXX_FLAGS_DEBUG=-Wall -Wextra -g",
   "CXX_FLAGS_RELEASE=-O3 -DNDEBUG",
   "",
   "# Additional CMake options",
   "CMAKE_EXTRA_OPTIONS=",
   "",
   "# Test configuration",
   "TEST_PARALLEL_JOBS=auto",
   "TEST_OUTPUT_ON_FAILURE=ON",
   "",
   "# Benchmark configuration",
   "BENCH_MIN_TIME=1",
   "BENCH_REPETITIONS=3",
   "",
   "# Documentation",
   "DOC_EXTRACT_ALL=YES",
   "DOC_GENERATE_CALL_GRAPH=YES",
   "",
   "# Static analysis",
   "STATIC_ANALYSIS_SEVERITY=warning",
   ""]

/-- The same compiled-in content as one string (what write_text receives). -/
def default_config : String := String.intercalate "\n" defaultConfigLines

/-- Embeds create_default_profile (src/fargo.py lines 215-251) acting on the
profiles directory, modelled as a map from file name to content: the default profile
file is written UNCONDITIONALLY (there is no existence check before write_text) and
every other file is untouched.  The profile init action of cmd_profile (lines
486-488) calls exactly this function. -/
def create_default_profile (fs : String → Option String) : String → Option String :=
  fun f => if f = DEFAULT_PROFILE ++ ".conf" then some default_config else fs f

/-- Profiles directory already holding a user-edited default profile file. -/
def userEditedFS : String → Option String :=
  fun f => if f = "default.conf" then some "# my customized profile" else none

/-- The mapping denoted by the compiled-in default profile content (what a
spec-level reading of the compiled-in defaults parses to). -/
def compiledInDefaults : List (String × String) :=
  match configRead defaultConfigLines with
  | .ok es => es
  | .error _ => []

/- ===== VariantResolver: get_build_dir and configure_build flags ===== -/

/-- The four build variants, each with the reserved output subdirectory that the
cmd_build_like / cmd_asan / cmd_tsan dispatch passes as mode (src/fargo.py lines
605-614, 863, 893). -/
inductive BuildVariant where
  | debug
  | release
  | debugAsan
  | debugTsan
deriving DecidableEq, Fintype

/-- Output subdirectory name of a variant. -/
def variantSubdir : BuildVariant → String
  | .debug => DEBUG_SUBDIR
  | .release => RELEASE_SUBDIR
  | .debugAsan => ASAN_SUBDIR
  | .debugTsan => TSAN_SUBDIR

/-- Embeds get_build_dir (src/fargo.py lines 526-528): Path(BUILD_DIR) / mode. -/
def get_build_dir (mode : String) : String := BUILD_DIR ++ "/" ++ mode

/-- Sanitizer choice of configure_build. -/
inductive Sanitizer where
  | asan
  | tsan
deriving DecidableEq

/-- Instrumentation flag a sanitizer appends (src/fargo.py lines 573-580). -/
def sanitizerFlag : Sanitizer → String
  | .asan => "-fsanitize=address"
  | .tsan => "-fsanitize=thread"

/-- Base compiler flags chosen from the profile by build type (src/fargo.py lines
566-570): the profile value of cxx_flags_debug or cxx_flags_release, defaulting to
the empty string, and empty for any other build type. -/
def baseFlags (profile : List (String × String)) (build_type : String) : String :=
  if build_type = "Debug" then ((profile.lookup "cxx_flags_debug").getD "")
  else if build_type = "Release" then ((profile.lookup "cxx_flags_release").getD "")
  else ""

/-- The cxx_flags string configure_build accumulates (src/fargo.py lines 566-580):
the profile base flags first, then the sanitizer instrumentation flag appended after
a separating space; nothing is removed or reordered. -/
def resolvedCxxFlags (profile : List (String × String)) (build_type : String) :
    Option Sanitizer → String
  | some .asan => baseFlags profile build_type ++ " -fsanitize=address"
  | some .tsan => baseFlags profile build_type ++ " -fsanitize=thread"
  | none => baseFlags profile build_type

/-- The CMAKE_EXE_LINKER_FLAGS define configure_build appends for a sanitizer build
(src/fargo.py lines 575 and 579); none for an uninstrumented build. -/
def linkerFlagOption : Option Sanitizer → Option String
  | some .asan => some "-DCMAKE_EXE_LINKER_FLAGS=-fsanitize=address"
  | some .tsan => some "-DCMAKE_EXE_LINKER_FLAGS=-fsanitize=thread"
  | none => none

/- ===== StalenessDetector (src/fargo.py lines 689-717, 747-775, 811-839) ===== -/

/-- Staleness check shared by cmd_run, cmd_test and cmd_bench: given whether the
variant output directory exists, the artifact mtime when the artifact exists (none
otherwise), and the input files the glob patterns enumerate (in pattern order)
paired with their mtimes, return the rebuild verdict together with the triggering
input logged, if any.  Timestamps are embedded as naturals: only their order is ever
consulted.  The check is a pure function of this filesystem snapshot, so an
immediately repeated check without further changes returns the same verdict. -/
def needs_rebuild (outdirExists : Bool) (binaryMtime : Option Nat)
    (inputs : List (String × Nat)) : Bool × Option String :=
  if !outdirExists then (true, none)
  else
    match binaryMtime with
    | none => (true, none)
    | some m =>
      match inputs.find? (fun f => decide (m < f.2)) with
      | some f => (true, some f.1)
      | none => (false, none)

/- ===== BuildOrchestrator consumer phases (run / test / bench exits) ===== -/

/-- Exit status of the orchestrator for the run action as a function of the consumer
binary exit status, embedding the tail of cmd_run (src/fargo.py lines 727-734): the
binary is launched through subprocess.run with check=False, the CompletedProcess
result is DISCARDED, cmd_run returns None and the interpreter exits 0; the consumer
status is never relayed. -/
def cmd_run_exit (consumerExit : Nat) : Nat :=
  let _completed := consumerExit
  0

/-- Exit status of the orchestrator for the bench action (src/fargo.py lines
849-854), identical in structure to the run action: the consumer status is
discarded and the interpreter exits 0. -/
def cmd_bench_exit (consumerExit : Nat) : Nat :=
  let _completed := consumerExit
  0

/-- Exit status of the orchestrator for the test action as a function of the
trailing arguments and the consumer exit status, embedding cmd_test lines 785-798:
with no trailing arguments ctest runs through run_command with check=True, whose
CalledProcessError is answered by die, exiting 1; with trailing arguments the test
binary runs through subprocess.run with check=False and its status is discarded, the
interpreter exiting 0. -/
def cmd_test_exit (args : List String) (consumerExit : Nat) : Nat :=
  if args.isEmpty then (if consumerExit = 0 then 0 else 1)
  else
    let _completed := consumerExit
    0

/- ===== Helper lemmas ===== -/

/-- Masking unreadable descriptors does not change whether a directory matches. -/
theorem descriptor_matches_mask (fs : DirFS) (p : List String) :
    descriptor_matches (maskUnreadable fs) p = descriptor_matches fs p := by
  unfold descriptor_matches maskUnreadable
  cases fs p <;> rfl

/-- The upward walk is the first match over the ancestor list ordered nearest-first,
the filesystem root [] excluded. -/
theorem find_project_root_eq_find (fs : DirFS) :
    ∀ start : List String,
      find_project_root fs start =
        start.tails.find? (fun p => !p.isEmpty && descriptor_matches fs p) := by
  intro start
  induction start with
  | nil => rfl
  | cons c rest ih =>
    rw [List.tails_cons]
    cases hm : descriptor_matches fs (c :: rest) with
    | true => simp [find_project_root, hm]
    | false => simp [find_project_root, hm, ih]

/-- Masking unreadable descriptors does not change the walk result. -/
theorem find_project_root_mask (fs : DirFS) :
    ∀ start : List String,
      find_project_root (maskUnreadable fs) start = find_project_root fs start := by
  intro start
  induction start with
  | nil => rfl
  | cons c rest ih => simp [find_project_root, descriptor_matches_mask, ih]

/-- A line with no bracket at its start matches no section header. -/
theorem sectionHeader_eq_none (v : List Char) (h : startsWithChar '[' v = false) :
    sectionHeader v = none := by
  cases v with
  | nil => rfl
  | cons a r =>
    have ha : ¬ a = '[' := by simpa [startsWithChar] using h
    simp [sectionHeader, ha]

/-- A line holding no delimiter character does not split. -/
theorem splitDelim_eq_none (v : List Char)
    (h : v.any (fun c => c == '=' || c == ':') = false) : splitDelim v = none := by
  induction v with
  | nil => rfl
  | cons a r ih =>
    simp only [List.any_cons, Bool.or_eq_false_iff] at h
    simp [splitDelim, h.1, ih h.2]

/-- Processing a malformed line errors out from every parser state. -/
theorem processLine_malformed (st : CPSt) (l : String) (h : lineMalformed l = true) :
    processLine st l = .error () := by
  unfold lineMalformed at h
  simp only [Bool.and_eq_true, Bool.not_eq_true', decide_eq_true_eq] at h
  obtain ⟨⟨⟨⟨⟨h1, h2⟩, h3⟩, h4⟩, h5⟩, h6⟩ := h
  have hne : trimList l.toList ≠ [] := by
    intro hh
    rw [hh] at h1
    simp at h1
  unfold processLine
  simp only [String.toList] at h2 h3 h4 h5 h6 hne
  simp [hne, h2, h3, h6, Nat.not_lt_zero,
    sectionHeader_eq_none _ h4, splitDelim_eq_none _ h5]

/-- A malformed line anywhere in the input makes the whole parse error out. -/
theorem cpRead_error_of_malformed (l : String) (h : lineMalformed l = true) :
    ∀ (ls : List String) (st : CPSt), l ∈ ls → cpRead st ls = .error () := by
  intro ls
  induction ls with
  | nil => intro st hl; cases hl
  | cons a rest ih =>
    intro st hl
    rcases List.mem_cons.mp hl with rfl | hmem
    · simp [cpRead, processLine_malformed st l h]
    · unfold cpRead
      cases hp : processLine st a with
      | error e => cases e; rfl
      | ok st2 => exact ih st2 hmem

/-- Sanity check: the compiled-in default profile content parses to the expected
mapping (file order, lower-cased keys, stripped values). -/
theorem compiledInDefaults_eval :
    compiledInDefaults =
      [("cmake_generator", "Ninja"),
       ("cmake_cxx_standard", "20"),
       ("cmake_build_type_debug", "Debug"),
       ("cmake_build_type_release", "Release"),
       ("cxx_flags_debug", "-Wall -Wextra -g"),
       ("cxx_flags_release", "-O3 -DNDEBUG"),
       ("cmake_extra_options", ""),
       ("test_parallel_jobs", "auto"),
       ("test_output_on_failure", "ON"),
       ("bench_min_time", "1"),
       ("bench_repetitions", "3"),
       ("doc_extract_all", "YES"),
       ("doc_generate_call_graph", "YES"),
       ("static_analysis_severity", "warning")] := by
  decide

/- ===== Claim theorems ===== -/

/-- C1: staleness verdict of the timestamp check: a missing output directory or a
missing artifact forces a rebuild with no triggering input reported; when the
artifact exists and no input mtime is strictly greater, the verdict is fresh; when
some input is strictly newer, the verdict is stale and a strictly newer triggering
input is reported.  Being a pure function of the snapshot, an unchanged repeated
check returns the same verdict again. -/
theorem staleness_verdict_correct (e : Bool) (a : Option Nat) (m : Nat)
    (ins : List (String × Nat)) :
    needs_rebuild e none ins = (true, none) ∧
    needs_rebuild false a ins = (true, none) ∧
    ((∀ f ∈ ins, f.2 ≤ m) → needs_rebuild true (some m) ins = (false, none)) ∧
    ((∃ f ∈ ins, m < f.2) →
      (needs_rebuild true (some m) ins).1 = true ∧
      ∃ g ∈ ins, m < g.2 ∧ (needs_rebuild true (some m) ins).2 = some g.1) := by
  refine ⟨by cases e <;> rfl, rfl, ?_, ?_⟩
  · intro hall
    have hn : ins.find? (fun f => decide (m < f.2)) = none := by
      rw [List.find?_eq_none]
      intro x hx
      simp [Nat.not_lt.mpr (hall x hx)]
    simp [needs_rebuild, hn]
  · rintro ⟨f, hf, hlt⟩
    have hs : (ins.find? (fun f => decide (m < f.2))).isSome := by
      rw [List.find?_isSome]
      exact ⟨f, hf, by simpa using hlt⟩
    obtain ⟨g, hg⟩ := Option.isSome_iff_exists.mp hs
    have hpg : m < g.2 := by simpa using List.find?_some hg
    have hmem : g ∈ ins := List.mem_of_find?_eq_some hg
    refine ⟨?_, g, hmem, hpg, ?_⟩ <;> simp [needs_rebuild, hg]

/-- Witness for the staleness theorem at concrete snapshots. -/
theorem staleness_verdict_correct_w :
    needs_rebuild true (some 10) [("a.cpp", 5), ("b.cpp", 10)] = (false, none) ∧
    (needs_rebuild true (some 10) [("a.cpp", 5), ("b.cpp", 20)]).1 = true :=
  ⟨(staleness_verdict_correct true (some 10) 10 [("a.cpp", 5), ("b.cpp", 10)]).2.2.1
      (by decide),
   ((staleness_verdict_correct true (some 10) 10 [("a.cpp", 5), ("b.cpp", 20)]).2.2.2
      ⟨("b.cpp", 20), by simp, by decide⟩).1⟩

/-- C2 counterexample: with a user-edited default profile file already on disk, the
profile init operation (create_default_profile) replaces its contents rather than
leaving them unchanged. -/
theorem profile_init_overwrites_cex :
    userEditedFS "default.conf" = some "# my customized profile" ∧
    create_default_profile userEditedFS "default.conf" ≠ some "# my customized profile" :=
  ⟨rfl, by decide⟩

/-- C2 amended: the profile init operation unconditionally materializes the
compiled-in default profile content at the default profile file, OVERWRITING any
existing file there, while leaving every other file of the profiles directory
unchanged. -/
theorem profile_init_writes_defaults (fs : String → Option String) (f : String)
    (h : f ≠ DEFAULT_PROFILE ++ ".conf") :
    create_default_profile fs (DEFAULT_PROFILE ++ ".conf") = some default_config ∧
    create_default_profile fs f = fs f := by
  refine ⟨rfl, ?_⟩
  simp [create_default_profile, h]

/-- Witness for the amended init theorem at a concrete directory state. -/
theorem profile_init_writes_defaults_w :
    create_default_profile userEditedFS "default.conf" = some default_config ∧
    create_default_profile userEditedFS "other.conf" = none := by
  have h := profile_init_writes_defaults userEditedFS "other.conf" (by decide)
  exact ⟨h.1, h.2.trans rfl⟩

/-- C3 counterexample: a profile file holding one well-formed directive and one
malformed line makes load_profile raise a parse error instead of returning the
well-formed entries, and main turns the escaped exception into a fatal exit 1. -/
theorem load_profile_malformed_cex :
    load_profile (some ["CMAKE_GENERATOR=Make", "oops bad line"]) "default" = .error () ∧
    profileLoadExit (some ["CMAKE_GENERATOR=Make", "oops bad line"]) "default" = 1 :=
  ⟨rfl, rfl⟩

/-- C3 amended: a malformed top-level line in the profile file (non-blank, not
indented, not a comment, not a section header, holding no key/value delimiter) is
NOT skipped: configparser raises, the exception escapes load_profile, and main,
catching it, aborts the action fatally with exit status 1. -/
theorem load_profile_malformed_fatal (pre post : List String) (mal profile_name : String)
    (h : lineMalformed mal = true) :
    load_profile (some (pre ++ mal :: post)) profile_name = .error () ∧
    profileLoadExit (some (pre ++ mal :: post)) profile_name = 1 := by
  have herr : configRead (pre ++ mal :: post) = .error () := by
    apply cpRead_error_of_malformed mal h
    simp
  constructor
  · simp [load_profile, herr]
  · simp [profileLoadExit, load_profile, herr]

/-- Witness for the malformed-line theorem at a concrete file. -/
theorem load_profile_malformed_fatal_w :
    lineMalformed "oops bad line" = true ∧
    load_profile (some (["CMAKE_GENERATOR=Ninja"] ++ "oops bad line" :: [])) "default" =
      .error () :=
  ⟨by decide,
   (load_profile_malformed_fatal ["CMAKE_GENERATOR=Ninja"] [] "oops bad line" "default"
      (by decide)).1⟩

/-- C4 counterexample: with trailing arguments supplied, a non-zero exit from the
test binary is NOT treated as fatal: the status is discarded and the orchestrator
exits 0. -/
theorem cmd_test_exit_args_cex : cmd_test_exit ["--gtest_filter=Foo"] 2 = 0 := rfl

/-- C4 amended: a non-zero consumer exit is fatal for the test action ONLY when no
trailing arguments are supplied (the ctest path dies with exit 1); when trailing
arguments are supplied the test binary exit status is ignored and the orchestrator
exits 0. -/
theorem cmd_test_exit_spec (args : List String) (e : Nat) :
    (e ≠ 0 → cmd_test_exit [] e = 1) ∧
    cmd_test_exit [] 0 = 0 ∧
    (args ≠ [] → cmd_test_exit args e = 0) := by
  refine ⟨?_, rfl, ?_⟩
  · intro h
    simp [cmd_test_exit, h]
  · intro h
    cases args with
    | nil => exact absurd rfl h
    | cons a r => simp [cmd_test_exit]

/-- Witness for the test exit theorem at concrete invocations. -/
theorem cmd_test_exit_spec_w :
    cmd_test_exit [] 3 = 1 ∧ cmd_test_exit [] 0 = 0 ∧
    cmd_test_exit ["--gtest_repeat=5"] 3 = 0 :=
  ⟨(cmd_test_exit_spec [] 3).1 (by decide), (cmd_test_exit_spec [] 3).2.1,
   (cmd_test_exit_spec ["--gtest_repeat=5"] 3).2.2 (by decide)⟩

/-- C5 counterexample: the run and bench consumers exit non-zero, yet the
orchestrator exit status is 0: the consumer exit code is not relayed. -/
theorem run_exit_not_relayed_cex :
    cmd_run_exit 5 = 0 ∧ cmd_run_exit 5 ≠ 5 ∧
    cmd_bench_exit 7 = 0 ∧ cmd_bench_exit 7 ≠ 7 :=
  ⟨rfl, by decide, rfl, by decide⟩

/-- C5 amended: a non-zero consumer exit does not abort run or bench, but the exit
code is NOT relayed either: the consumer status is discarded and the orchestrator
always exits 0. -/
theorem run_bench_exit_ignored (e : Nat) :
    cmd_run_exit e = 0 ∧ cmd_bench_exit e = 0 :=
  ⟨rfl, rfl⟩

/-- C6 counterexample: for an absent non-default profile, load_profile warns once
but returns the EMPTY mapping, which differs from the mapping denoted by the
compiled-in default profile content (that mapping defines cmake_cxx_standard, the
empty one defines nothing). -/
theorem load_profile_missing_cex :
    load_profile none "myprofile" = .ok ([], ["myprofile"]) ∧
    compiledInDefaults ≠ [] ∧
    compiledInDefaults.lookup "cmake_cxx_standard" = some "20" :=
  ⟨rfl, by decide, by decide⟩

/-- C6 amended: requesting a profile whose file is absent emits exactly one
warning-level signal and returns the empty mapping without raising, defaults being
applied per key at the use sites instead; for the default name the absence is
silent. -/
theorem load_profile_missing_spec (profile_name : String)
    (h : profile_name ≠ DEFAULT_PROFILE) :
    load_profile none profile_name = .ok ([], [profile_name]) ∧
    load_profile none DEFAULT_PROFILE = .ok ([], []) := by
  constructor
  · simp [load_profile, h]
  · simp [load_profile]

/-- Witness for the absent-profile theorem at a concrete name. -/
theorem load_profile_missing_spec_w :
    load_profile none "myprof" = .ok ([], ["myprof"]) ∧
    load_profile none "default" = .ok ([], []) :=
  ⟨(load_profile_missing_spec "myprof" (by decide)).1,
   (load_profile_missing_spec "myprof" (by decide)).2⟩

/-- C7: locate returns the nearest ancestor (the start directory included, the
filesystem root excluded) whose descriptor is readable and contains the
project-declaration token — equivalently, the first match over the ancestor list
ordered nearest-first — and none (NotFound, not an error) when no ancestor matches;
moreover replacing every unreadable descriptor by an absent one leaves the result
unchanged, so an unreadable candidate is treated as a non-match the walk passes
over. -/
theorem locate_returns_nearest_matching_ancestor (fs : DirFS) (start : List String) :
    find_project_root fs start =
      start.tails.find? (fun p => !p.isEmpty && descriptor_matches fs p) ∧
    find_project_root fs start = find_project_root (maskUnreadable fs) start :=
  ⟨find_project_root_eq_find fs start, (find_project_root_mask fs start).symm⟩

/-- C8: distinct build variants always resolve to distinct output directories. -/
theorem variant_output_dirs_disjoint (v w : BuildVariant) (h : v ≠ w) :
    get_build_dir (variantSubdir v) ≠ get_build_dir (variantSubdir w) := by
  revert v w
  decide

/-- Witness for variant disjointness at a concrete pair. -/
theorem variant_output_dirs_disjoint_w :
    get_build_dir (variantSubdir BuildVariant.debug) ≠
      get_build_dir (variantSubdir BuildVariant.release) :=
  variant_output_dirs_disjoint BuildVariant.debug BuildVariant.release (by decide)

/-- C9: flag accumulation is append-only: without a sanitizer the resolved flag
string is exactly the profile base flags; with a sanitizer it is the base flags
followed by one separating space and the sanitizer instrumentation flag (the base
flags are never reordered or removed), and the matching linker flag option is set
for the sanitizer variants only. -/
theorem configure_flags_append_only (profile : List (String × String))
    (build_type : String) (s : Sanitizer) :
    resolvedCxxFlags profile build_type none = baseFlags profile build_type ∧
    resolvedCxxFlags profile build_type (some s) =
      baseFlags profile build_type ++ (" " ++ sanitizerFlag s) ∧
    linkerFlagOption (some s) = some ("-DCMAKE_EXE_LINKER_FLAGS=" ++ sanitizerFlag s) ∧
    linkerFlagOption none = none := by
  cases s <;> exact ⟨rfl, rfl, rfl, rfl⟩

/-- C10: the walk tests only strict descendants of the filesystem root: even when
the root directory itself holds a readable descriptor containing the
project-declaration token, locate started anywhere with no matching ancestor
strictly below the root returns NotFound. -/
theorem locate_never_matches_fs_root (fs : DirFS) (start : List String)
    (_hroot : descriptor_matches fs [] = true)
    (hbelow : ∀ q ∈ start.tails, q ≠ [] → descriptor_matches fs q = false) :
    find_project_root fs start = none := by
  rw [find_project_root_eq_find, List.find?_eq_none]
  intro p hp
  by_cases h0 : p = []
  · subst h0; simp
  · simp [hbelow p hp h0]

/-- Witness for the root-exclusion theorem on a concrete tree whose only matching
descriptor sits at the filesystem root. -/
theorem locate_never_matches_fs_root_w :
    descriptor_matches rootOnlyFS [] = true ∧
    find_project_root rootOnlyFS ["sub", "home"] = none :=
  ⟨by decide,
   locate_never_matches_fs_root rootOnlyFS ["sub", "home"] (by decide) (by decide)⟩

end Fargo
